import Mathlib

/-!
Verification development for a multi-tenant todo backend.

The definitions below are a shallow embedding of the backend's core:
the access guard (`src/core/security.py`), the todo routes
(`src/api/routes/todos.py`), the request/response schemas
(`src/schemas/todo.py`) and the error envelope produced by the
exception handlers in `src/main.py`.

Modelling conventions:
* Timestamps are natural numbers counting microseconds since the epoch
  (Python `datetime` objects are naive UTC instants with microsecond
  resolution).  `dateOf` is the embedding of `.date()`.
* Each call to `datetime.utcnow()` in the source is a distinct clock
  read and becomes an explicit parameter of the embedded operation, in
  source order.  The per-item classifier reads inside the list
  response loop are collapsed into a single instant (the loop body
  does not write the clock, only reads it).
* The database is a list of `Todo` rows; the autoincrement primary key
  is modelled by `nextId`.
* Raised `HTTPException`s become `ApiError` values; the JSON bodies the
  exception handlers of `main.py` produce for them are computed by
  `renderError`.
-/

namespace TodoApp

/-- Microseconds in one day; `datetime` resolution is the microsecond. -/
def usPerDay : Nat := 86400000000

/-- Embedding of `timestamp.date()`: the UTC calendar day of an instant. -/
def dateOf (t : Nat) : Nat := t / usPerDay

/-- Embedding of `datetime.combine(now.date(), datetime.min.time())`. -/
def startOfDay (t : Nat) : Nat := dateOf t * usPerDay

/-- Embedding of `datetime.combine(now.date(), datetime.max.time())`,
i.e. 23:59:59.999999 of the same day. -/
def endOfDayMax (t : Nat) : Nat := startOfDay t + (usPerDay - 1)

/-- `PriorityEnum` from `src/schemas/todo.py` / `src/models/todo.py`. -/
inductive Priority where
  | high
  | medium
  | low
deriving DecidableEq, Repr

/-- The string value of a `PriorityEnum` member (it is a `str` enum;
this is the value stored in the database and compared by SQL filters). -/
def Priority.str : Priority → String
  | .high => "high"
  | .medium => "medium"
  | .low => "low"

/-- `DueDateStatus` from `src/schemas/todo.py`. -/
inductive DueDateStatus where
  | overdue
  | dueToday
  | upcoming
  | noDueDate
deriving DecidableEq, Repr

/-- The `Todo` table row from `src/models/todo.py`. -/
structure Todo where
  id : Nat
  title : String
  description : Option String
  completed : Bool
  due_date : Option Nat
  priority : Priority
  category_id : Option Nat
  user_id : Nat
  created_at : Nat
  updated_at : Nat
deriving DecidableEq, Repr

/-- `TodoResponse` from `src/schemas/todo.py` as the routes populate it
(`due_date_status` is always set by the handler before returning). -/
structure TodoResponse where
  id : Nat
  title : String
  description : Option String
  completed : Bool
  due_date : Option Nat
  due_date_status : DueDateStatus
  priority : Priority
  user_id : Nat
  created_at : Nat
  updated_at : Nat
deriving DecidableEq, Repr

/-- `compute_due_date_status` from `src/api/routes/todos.py` (lines
27-49).  The function reads `datetime.utcnow()` internally; that clock
read is the explicit `now` argument. -/
def compute_due_date_status (due_date : Option Nat) (now : Nat) : DueDateStatus :=
  match due_date with
  | none => .noDueDate
  | some d =>
    if dateOf d < dateOf now then .overdue
    else if dateOf d = dateOf now then .dueToday
    else .upcoming

/-- `TodoResponse.model_validate(todo)` followed by setting
`due_date_status` from the classifier, as every handler does. -/
def toResponse (t : Todo) (now : Nat) : TodoResponse :=
  { id := t.id
    title := t.title
    description := t.description
    completed := t.completed
    due_date := t.due_date
    due_date_status := compute_due_date_status t.due_date now
    priority := t.priority
    user_id := t.user_id
    created_at := t.created_at
    updated_at := t.updated_at }

/-- Domain errors raised by the routes as `HTTPException`s (plus the
catch-all for unexpected exceptions such as `AttributeError`). -/
inductive ApiError where
  | forbidden
  | notFound (todoId : Nat)
  | validationError (detail : String)
  | requestValidationError (details : List String)
  | internalError (detail : String)
deriving DecidableEq, Repr

/-- `validate_user_access` from `src/core/security.py` (lines 92-126):
pure equality comparison, raising 403 Forbidden on mismatch. -/
def validate_user_access (token_user_id resource_user_id : Nat) : Except ApiError Unit :=
  if token_user_id ≠ resource_user_id then .error .forbidden else .ok ()

/-- The JSON error envelope `{"error": {"code", "message", "details"}}`
paired with the HTTP status code. -/
structure ErrorBody where
  status : Nat
  code : String
  message : String
  details : List String
deriving DecidableEq, Repr

/-- Python `str()` of the dict passed as the 403 detail in
`validate_user_access` (the braces and quotes are written as hex
escapes). -/
def forbiddenDetail : String :=
  "\x7b\x27error\x27: \x7b\x27code\x27: \x27FORBIDDEN\x27, \x27message\x27: \x27You can only access your own resources\x27, \x27details\x27: []\x7d\x7d"

/-- The exception handlers of `src/main.py`.  For a string detail the
`HTTPException` handler sets `message := detail` and, because
`details == [exc.detail]`, empties the details list; for the 403's dict
detail it sets `message := "Request failed"` and keeps `[str(detail)]`;
`RequestValidationError` renders "Invalid input data" with per-field
details; the catch-all renders the generic 500 body. -/
def renderError : ApiError → ErrorBody
  | .forbidden =>
    { status := 403, code := "FORBIDDEN", message := "Request failed"
      details := [forbiddenDetail] }
  | .notFound tid =>
    { status := 404, code := "NOT_FOUND"
      message := s!"Todo with ID {tid} not found", details := [] }
  | .validationError d =>
    { status := 422, code := "VALIDATION_ERROR", message := d, details := [] }
  | .requestValidationError ds =>
    { status := 422, code := "VALIDATION_ERROR", message := "Invalid input data"
      details := ds }
  | .internalError _ =>
    { status := 500, code := "INTERNAL_SERVER_ERROR"
      message := "An unexpected error occurred"
      details := ["Please contact support if this issue persists"] }

/-- `str.strip()` on the underlying character list: drop whitespace
from the front, then from the back. -/
def stripChars (l : List Char) : List Char :=
  ((l.dropWhile Char.isWhitespace).reverse.dropWhile Char.isWhitespace).reverse

/-- Embedding of Python `str.strip()` (whitespace characters modelled
as the ASCII whitespace set). -/
def strip (s : String) : String :=
  ⟨stripChars s.data⟩

/-- `TodoCreate` from `src/schemas/todo.py` after pydantic validation. -/
structure TodoCreate where
  title : String
  description : Option String
  completed : Bool
  due_date : Option Nat
  priority : Priority
deriving DecidableEq, Repr

/-- The raw JSON payload of a create request, before pydantic
validation (`completed` and `priority` defaults already applied by the
schema's `Field` defaults). -/
structure RawTodoCreate where
  title : String
  description : Option String
  completed : Bool
  due_date : Option Nat
  priority : Priority
deriving DecidableEq, Repr

/-- `TodoUpdate` from `src/schemas/todo.py` after validation; an outer
`none` means the field was absent from the payload
(`model_dump(exclude_unset=True)` drops it), and for the nullable
columns `some none` means the field was explicitly set to null. -/
structure TodoUpdate where
  title : Option String
  description : Option (Option String)
  completed : Option Bool
  due_date : Option (Option Nat)
  priority : Option Priority
deriving DecidableEq, Repr

/-- The raw JSON payload of an update request before validation.
A payload carrying `"title": null` is not modelled (the schema would
pass it through; no claim depends on it). -/
structure RawTodoUpdate where
  title : Option String
  description : Option (Option String)
  completed : Option Bool
  due_date : Option (Option Nat)
  priority : Option Priority
deriving DecidableEq, Repr

/-- Embedding of `not todo_data.model_dump(exclude_unset=True)`:
the update carries no field at all. -/
def TodoUpdate.isEmpty (u : TodoUpdate) : Bool :=
  u.title.isNone && u.description.isNone && u.completed.isNone
    && u.due_date.isNone && u.priority.isNone

/-- `TodoCreate.validate_title` (`src/schemas/todo.py` lines 67-79):
strip surrounding whitespace, reject when empty afterwards. -/
def validate_title (v : String) : Except String String :=
  let v := strip v
  if v = "" then .error "Title cannot be empty or whitespace only" else .ok v

/-- `validate_description` of both schemas: strip when provided,
collapse empty-after-strip to absent. -/
def validate_description (v : Option String) : Option String :=
  match v with
  | none => none
  | some s =>
    let s := strip s
    if s = "" then none else some s

/-- Validation of the create payload's description field. -/
def parseCreateDescr (raw : RawTodoCreate) (title : String) : Except String TodoCreate :=
  match raw.description with
  | none =>
    .ok { title := title, description := none, completed := raw.completed
          due_date := raw.due_date, priority := raw.priority }
  | some s =>
    if 1000 < s.length then
      .error "description: String should have at most 1000 characters"
    else
      .ok { title := title, description := validate_description (some s)
            completed := raw.completed, due_date := raw.due_date
            priority := raw.priority }

/-- Pydantic validation of a create payload: `Field` length constraints
first, then the field validators.  The first failing field's message is
reported (the handler turns it into a 422 response). -/
def parseTodoCreate (raw : RawTodoCreate) : Except String TodoCreate :=
  if raw.title.length < 1 then
    .error "title: String should have at least 1 character"
  else if 200 < raw.title.length then
    .error "title: String should have at most 200 characters"
  else
    match validate_title raw.title with
    | .error e => .error s!"title: Value error, {e}"
    | .ok title => parseCreateDescr raw title

/-- Validation of the update payload's description field. -/
def parseUpdateDescr (raw : RawTodoUpdate) (title : Option String) : Except String TodoUpdate :=
  match raw.description with
  | none =>
    .ok { title := title, description := none, completed := raw.completed
          due_date := raw.due_date, priority := raw.priority }
  | some none =>
    .ok { title := title, description := some none, completed := raw.completed
          due_date := raw.due_date, priority := raw.priority }
  | some (some s) =>
    if 1000 < s.length then
      .error "description: String should have at most 1000 characters"
    else
      .ok { title := title, description := some (validate_description (some s))
            completed := raw.completed, due_date := raw.due_date
            priority := raw.priority }

/-- Pydantic validation of an update payload (`TodoUpdate.validate_title`
at `src/schemas/todo.py` lines 226-239 runs only on provided titles). -/
def parseTodoUpdate (raw : RawTodoUpdate) : Except String TodoUpdate :=
  match raw.title with
  | none => parseUpdateDescr raw none
  | some s =>
    if s.length < 1 then
      .error "title: String should have at least 1 character"
    else if 200 < s.length then
      .error "title: String should have at most 200 characters"
    else
      match validate_title s with
      | .error e => .error s!"title: Value error, {e}"
      | .ok t => parseUpdateDescr raw (some t)

/-- Autoincrement primary key of the `todos` table: one more than the
largest id present. -/
def nextId (db : List Todo) : Nat :=
  db.foldr (fun t m => max t.id m) 0 + 1

/-- The row predicate of every scoped query:
`Todo.id == todo_id, Todo.user_id == user_id`. -/
def todoKey (todo_id user_id : Nat) (t : Todo) : Bool :=
  t.id == todo_id && t.user_id == user_id

/-- Replace the first row matching `p` (the ORM flushes the mutated
object back to its unique primary-key row). -/
def replaceFirst (p : Todo → Bool) (t' : Todo) : List Todo → List Todo
  | [] => []
  | x :: xs => if p x then t' :: xs else x :: replaceFirst p t' xs

/-- Remove the first row matching `p` (`session.delete(todo)`). -/
def removeFirst (p : Todo → Bool) : List Todo → List Todo
  | [] => []
  | x :: xs => if p x then xs else x :: removeFirst p xs

/-- `setattr(todo, field, value)` over the provided update fields,
followed by `todo.updated_at = datetime.utcnow()`. -/
def applyUpdate (t : Todo) (u : TodoUpdate) (now : Nat) : Todo :=
  { t with
    title := u.title.getD t.title
    description := (u.description.getD t.description)
    completed := u.completed.getD t.completed
    due_date := (u.due_date.getD t.due_date)
    priority := u.priority.getD t.priority
    updated_at := now }

/-- The sortable attributes of the `Todo` model (its table columns). -/
inductive SortField where
  | id
  | title
  | descr
  | completed
  | dueDate
  | priority
  | categoryId
  | userId
  | createdAt
  | updatedAt
deriving DecidableEq, Repr

/-- Embedding of `getattr(Todo, sort, Todo.created_at)`, restricted to
the strings this development reasons about: a string naming one of the
model's mapped columns selects that column, and a string naming no
attribute of the `Todo` class at all takes the `Todo.created_at`
default.  A string naming a non-column class attribute — such as
`__tablename__`, declared on the model, or the members inherited from
SQLModel — is found by `getattr` and then fails `.asc()`/`.desc()`
with an `AttributeError` (a 500, not the fallback ordering); those
strings are outside this embedding, whose sort-fallback theorems are
stated only for column names and for strings that are no attribute. -/
def sortKeyField (sort : String) : SortField :=
  if sort = "id" then .id
  else if sort = "title" then .title
  else if sort = "description" then .descr
  else if sort = "completed" then .completed
  else if sort = "due_date" then .dueDate
  else if sort = "priority" then .priority
  else if sort = "category_id" then .categoryId
  else if sort = "user_id" then .userId
  else if sort = "created_at" then .createdAt
  else if sort = "updated_at" then .updatedAt
  else .createdAt

/-- SQL comparison on a nullable numeric column (NULLs sort first). -/
def optNatLe (a b : Option Nat) : Bool :=
  match a, b with
  | none, _ => true
  | some _, none => false
  | some x, some y => decide (x ≤ y)

/-- Lexicographic code-point comparison of character lists; SQL TEXT
columns compare by their UTF-8 bytes, which orders code points the
same way. -/
def strLeChars : List Char → List Char → Bool
  | [], _ => true
  | _ :: _, [] => false
  | a :: as, b :: bs =>
    if a.toNat < b.toNat then true
    else if b.toNat < a.toNat then false
    else strLeChars as bs

/-- SQL comparison of two TEXT values. -/
def strLe (a b : String) : Bool :=
  strLeChars a.data b.data

/-- SQL comparison on a nullable text column (NULLs sort first). -/
def optStrLe (a b : Option String) : Bool :=
  match a, b with
  | none, _ => true
  | some _, none => false
  | some x, some y => strLe x y

/-- `ORDER BY column ASC` comparison for each sortable column; the
`priority` column holds the enum's string value, so it compares as
text. -/
def fieldLe (f : SortField) (a b : Todo) : Bool :=
  match f with
  | .id => decide (a.id ≤ b.id)
  | .title => strLe a.title b.title
  | .descr => optStrLe a.description b.description
  | .completed => !a.completed || b.completed
  | .dueDate => optNatLe a.due_date b.due_date
  | .priority => strLe a.priority.str b.priority.str
  | .categoryId => optNatLe a.category_id b.category_id
  | .userId => decide (a.user_id ≤ b.user_id)
  | .createdAt => decide (a.created_at ≤ b.created_at)
  | .updatedAt => decide (a.updated_at ≤ b.updated_at)

/-- Stable insertion into a sorted list. -/
def insertLe (le : Todo → Todo → Bool) (x : Todo) : List Todo → List Todo
  | [] => [x]
  | y :: ys => if le x y then x :: y :: ys else y :: insertLe le x ys

/-- Stable insertion sort; models the backing store's `ORDER BY`
(tie order among equal keys is unspecified by the store). -/
def sortLe (le : Todo → Todo → Bool) : List Todo → List Todo
  | [] => []
  | x :: xs => insertLe le x (sortLe le xs)

/-- Lines 199-204 of the route: resolve the sort column with
`getattr`, then `ORDER BY` ascending exactly when `order == "asc"`,
descending otherwise. -/
def applySort (sort ord : String) (l : List Todo) : List Todo :=
  let f := sortKeyField sort
  if ord = "asc" then sortLe (fieldLe f) l
  else sortLe (fun a b => fieldLe f b a) l

/-- The mandatory owner scoping
`select(Todo).where(Todo.user_id == user_id)`. -/
def ownerScoped (user_id : Nat) (db : List Todo) : List Todo :=
  db.filter (fun t => t.user_id == user_id)

/-- `if completed is not None: ... where(Todo.completed == completed)`. -/
def applyCompleted (completed : Option Bool) (l : List Todo) : List Todo :=
  match completed with
  | none => l
  | some c => l.filter (fun t => t.completed == c)

/-- `if priority: ... where(Todo.priority == priority)` — note the
truthiness test: an empty string disables the filter entirely, and the
value is never checked against the enum. -/
def applyPriority (priority : Option String) (l : List Todo) : List Todo :=
  match priority with
  | none => l
  | some p => if p = "" then l else l.filter (fun t => t.priority.str == p)

/-- The `due_date_status` filter block (route lines 180-197) against
the query-time clock `now`.  `overdue` compares full instants
(`Todo.due_date < now`); `due_today` uses the day's
`[min.time(), max.time())` window; the `upcoming` branch evaluates
`datetime.timedelta(days=1)` on the `datetime` class — which has no
such attribute — so it raises `AttributeError`, surfacing as the
catch-all 500; an unrecognized non-empty value matches no branch and
leaves the query unfiltered, and an empty string fails the truthiness
test. -/
def applyDueDateStatus (due_date_status : Option String) (now : Nat)
    (l : List Todo) : Except ApiError (List Todo) :=
  match due_date_status with
  | none => .ok l
  | some s =>
    if s = "" then .ok l
    else if s = "overdue" then
      .ok (l.filter (fun t =>
        match t.due_date with
        | some d => decide (d < now)
        | none => false))
    else if s = "due_today" then
      .ok (l.filter (fun t =>
        match t.due_date with
        | some d => decide (startOfDay now ≤ d) && decide (d < endOfDayMax now)
        | none => false))
    else if s = "upcoming" then
      .error (.internalError
        "AttributeError: type object datetime has no attribute timedelta")
    else if s = "no_due_date" then
      .ok (l.filter (fun t => t.due_date.isNone))
    else .ok l

/-- `create_todo` (route lines 65-117).  `tCreated` and `tUpdated` are
the two `datetime.utcnow()` reads stamping the row (source lines
103-104, in that order); `tResp` is the classifier's read while
building the response. -/
def create_todo (user_id : Nat) (todo_data : TodoCreate) (current_user_id : Nat)
    (db : List Todo) (tCreated tUpdated tResp : Nat) :
    Except ApiError TodoResponse × List Todo :=
  match validate_user_access current_user_id user_id with
  | .error e => (.error e, db)
  | .ok _ =>
    let todo : Todo :=
      { id := nextId db, title := todo_data.title
        description := todo_data.description
        completed := todo_data.completed, due_date := todo_data.due_date
        priority := todo_data.priority, category_id := none
        user_id := user_id, created_at := tCreated, updated_at := tUpdated }
    (.ok (toResponse todo tResp), db ++ [todo])

/-- `list_todos` (route lines 132-218): guard, owner-scoped query,
optional filters, sort, then responses annotated by the classifier.
`nowQ` is the filter block's clock read (line 181), `nowR` the
response-loop classifier reads. -/
def list_todos (user_id current_user_id : Nat) (db : List Todo)
    (completed : Option Bool) (priority : Option String)
    (due_date_status : Option String) (sort ord : String)
    (nowQ nowR : Nat) : Except ApiError (List TodoResponse) :=
  match validate_user_access current_user_id user_id with
  | .error e => .error e
  | .ok _ =>
    match applyDueDateStatus due_date_status nowQ
        (applyPriority priority (applyCompleted completed (ownerScoped user_id db))) with
    | .error e => .error e
    | .ok l => .ok ((applySort sort ord l).map (fun t => toResponse t nowR))

/-- The `Query(...)` default of the `sort` parameter. -/
def defaultSort : String := "created_at"

/-- The `Query(...)` default of the `order` parameter. -/
def defaultOrder : String := "desc"

/-- `get_todo` (route lines 234-283): guard, then lookup filtered by
both todo id and owner id; absent → 404. -/
def get_todo (user_id todo_id current_user_id : Nat) (db : List Todo)
    (nowR : Nat) : Except ApiError TodoResponse :=
  match validate_user_access current_user_id user_id with
  | .error e => .error e
  | .ok _ =>
    match db.find? (todoKey todo_id user_id) with
    | none => .error (.notFound todo_id)
    | some t => .ok (toResponse t nowR)

/-- `update_todo` (route lines 300-372): guard, reject an empty field
set, scoped lookup, apply provided fields, stamp `updated_at` with the
clock read `nowU` (line 360), flush, respond with classifier read
`nowR`. -/
def update_todo (user_id todo_id : Nat) (todo_data : TodoUpdate)
    (current_user_id : Nat) (db : List Todo) (nowU nowR : Nat) :
    Except ApiError TodoResponse × List Todo :=
  match validate_user_access current_user_id user_id with
  | .error e => (.error e, db)
  | .ok _ =>
    if todo_data.isEmpty then
      (.error (.validationError "At least one field must be provided for update"), db)
    else
      match db.find? (todoKey todo_id user_id) with
      | none => (.error (.notFound todo_id), db)
      | some t =>
        let t' := applyUpdate t todo_data nowU
        (.ok (toResponse t' nowR), replaceFirst (todoKey todo_id user_id) t' db)

/-- `delete_todo` (route lines 387-435): guard, scoped lookup,
permanent removal. -/
def delete_todo (user_id todo_id current_user_id : Nat) (db : List Todo) :
    Except ApiError Unit × List Todo :=
  match validate_user_access current_user_id user_id with
  | .error e => (.error e, db)
  | .ok _ =>
    match db.find? (todoKey todo_id user_id) with
    | none => (.error (.notFound todo_id), db)
    | some _ => (.ok (), removeFirst (todoKey todo_id user_id) db)

/-- The create endpoint as exposed over HTTP: FastAPI validates the
body against `TodoCreate` before the handler runs (a failure renders
through the `RequestValidationError` handler), then calls the
handler. -/
def create_todo_route (user_id : Nat) (raw : RawTodoCreate)
    (current_user_id : Nat) (db : List Todo) (tCreated tUpdated tResp : Nat) :
    Except ApiError TodoResponse × List Todo :=
  match parseTodoCreate raw with
  | .error e => (.error (.requestValidationError [e]), db)
  | .ok todo_data => create_todo user_id todo_data current_user_id db tCreated tUpdated tResp

/-- The update endpoint as exposed over HTTP: body validation against
`TodoUpdate` precedes the handler. -/
def update_todo_route (user_id todo_id : Nat) (raw : RawTodoUpdate)
    (current_user_id : Nat) (db : List Todo) (nowU nowR : Nat) :
    Except ApiError TodoResponse × List Todo :=
  match parseTodoUpdate raw with
  | .error e => (.error (.requestValidationError [e]), db)
  | .ok todo_data => update_todo user_id todo_id todo_data current_user_id db nowU nowR

/-- Decidable equality of request outcomes, so concrete runs can be
checked by evaluation. -/
instance {ε α : Type} [DecidableEq ε] [DecidableEq α] : DecidableEq (Except ε α) := fun x y =>
  match x, y with
  | .error a, .error b =>
    if h : a = b then .isTrue (by rw [h]) else .isFalse (fun hc => h (Except.error.inj hc))
  | .ok a, .ok b =>
    if h : a = b then .isTrue (by rw [h]) else .isFalse (fun hc => h (Except.ok.inj hc))
  | .error _, .ok _ => .isFalse (fun hc => Except.noConfusion hc)
  | .ok _, .error _ => .isFalse (fun hc => Except.noConfusion hc)

/-- The HTTP status rendered for a failed todo request (`none` when the
request succeeded). -/
def errStatus (r : Except ApiError TodoResponse) : Option Nat :=
  match r with
  | .error e => some (renderError e).status
  | .ok _ => none

/-- A stored title in good standing: not empty and not whitespace-only
(i.e. stripping it leaves at least one character). -/
def goodTitleB (t : Todo) : Bool :=
  decide (stripChars t.title.data ≠ [])

/-- The column names of the `Todo` model. -/
def todoColumnNames : List String :=
  ["id", "title", "description", "completed", "due_date", "priority",
   "category_id", "user_id", "created_at", "updated_at"]

/-- A valid create payload. -/
def sampleCreate : TodoCreate :=
  { title := "Buy milk", description := none, completed := false
    due_date := none, priority := .medium }

/-- A stored row of user 1. -/
def sampleTodo : Todo :=
  { id := 1, title := "b", description := none, completed := false
    due_date := none, priority := .medium, category_id := none
    user_id := 1, created_at := 1, updated_at := 1 }

/-- A second stored row of user 1 whose title order and creation order
disagree. -/
def sampleTodo2 : Todo :=
  { sampleTodo with id := 2, title := "a", created_at := 2, updated_at := 2 }

/-- A row owned by a different user (user 99). -/
def otherTodo : Todo :=
  { sampleTodo with id := 5, user_id := 99 }

/-- A row of user 1 due earlier today relative to the fixture clock
`usPerDay + 1000`. -/
def dueEarlierToday : Todo :=
  { sampleTodo with due_date := some (usPerDay + 500) }

/-- An update payload setting only `completed`. -/
def setCompleted : TodoUpdate :=
  { title := none, description := none, completed := some true
    due_date := none, priority := none }

/-- The update payload of an empty body. -/
def emptyUpdate : TodoUpdate :=
  { title := none, description := none, completed := none
    due_date := none, priority := none }

/-- The response of creating `sampleCreate` in an empty store with
clock reads 0 and 1. -/
def sampleCreatedResp : TodoResponse :=
  { id := 1, title := "Buy milk", description := none, completed := false
    due_date := none, due_date_status := .noDueDate, priority := .medium
    user_id := 1, created_at := 0, updated_at := 1 }

/-- The response of applying `setCompleted` to `sampleTodo` at clock
read 5. -/
def updatedSampleResp : TodoResponse :=
  { id := 1, title := "b", description := none, completed := true
    due_date := none, due_date_status := .noDueDate, priority := .medium
    user_id := 1, created_at := 1, updated_at := 5 }

/-- A raw create payload whose title carries surrounding whitespace. -/
def rawBuyMilk : RawTodoCreate :=
  { title := "  Buy milk  ", description := none, completed := false
    due_date := none, priority := .medium }

/-- A raw create payload whose title is whitespace-only. -/
def rawBlankCreate : RawTodoCreate :=
  { rawBuyMilk with title := "  " }

/-- A raw update payload supplying only a whitespace-only title. -/
def rawBlankUpdate : RawTodoUpdate :=
  { title := some "  ", description := none, completed := none
    due_date := none, priority := none }

theorem mem_insertLe {le : Todo → Todo → Bool} {x a : Todo} {l : List Todo}
    (h : x ∈ insertLe le a l) : x = a ∨ x ∈ l := by
  induction l with
  | nil => simpa [insertLe] using h
  | cons y ys ih =>
    simp only [insertLe] at h
    split at h
    · exact List.mem_cons.mp h
    · rcases List.mem_cons.mp h with h | h
      · exact Or.inr (List.mem_cons.mpr (Or.inl h))
      · rcases ih h with h | h
        · exact Or.inl h
        · exact Or.inr (List.mem_cons.mpr (Or.inr h))

theorem mem_sortLe {le : Todo → Todo → Bool} {x : Todo} {l : List Todo}
    (h : x ∈ sortLe le l) : x ∈ l := by
  induction l with
  | nil => simpa [sortLe] using h
  | cons y ys ih =>
    simp only [sortLe] at h
    rcases mem_insertLe h with h | h
    · exact List.mem_cons.mpr (Or.inl h)
    · exact List.mem_cons.mpr (Or.inr (ih h))

theorem mem_applySort {sort ord : String} {x : Todo} {l : List Todo}
    (h : x ∈ applySort sort ord l) : x ∈ l := by
  simp only [applySort] at h
  split at h
  · exact mem_sortLe h
  · exact mem_sortLe h

theorem mem_ownerScoped {uid : Nat} {x : Todo} {db : List Todo}
    (h : x ∈ ownerScoped uid db) : x ∈ db ∧ x.user_id = uid := by
  have := List.mem_filter.mp h
  exact ⟨this.1, by simpa using this.2⟩

theorem mem_applyCompleted {c : Option Bool} {x : Todo} {l : List Todo}
    (h : x ∈ applyCompleted c l) : x ∈ l := by
  cases c with
  | none => exact h
  | some b => exact (List.mem_filter.mp h).1

theorem mem_applyPriority {p : Option String} {x : Todo} {l : List Todo}
    (h : x ∈ applyPriority p l) : x ∈ l := by
  cases p with
  | none => exact h
  | some s =>
    simp only [applyPriority] at h
    split at h
    · exact h
    · exact (List.mem_filter.mp h).1

theorem mem_applyDueDateStatus {dds : Option String} {now : Nat}
    {l l' : List Todo} (hok : applyDueDateStatus dds now l = .ok l')
    {x : Todo} (h : x ∈ l') : x ∈ l := by
  cases dds with
  | none => cases hok; exact h
  | some s =>
    simp only [applyDueDateStatus] at hok
    split at hok
    · cases hok; exact h
    · split at hok
      · cases hok; exact (List.mem_filter.mp h).1
      · split at hok
        · cases hok; exact (List.mem_filter.mp h).1
        · split at hok
          · cases hok
          · split at hok
            · cases hok; exact (List.mem_filter.mp h).1
            · cases hok; exact h

theorem mem_replaceFirst {p : Todo → Bool} {t' x : Todo} {l : List Todo}
    (h : x ∈ replaceFirst p t' l) : x = t' ∨ x ∈ l := by
  induction l with
  | nil => simpa [replaceFirst] using h
  | cons y ys ih =>
    simp only [replaceFirst] at h
    split at h
    · rcases List.mem_cons.mp h with h | h
      · exact Or.inl h
      · exact Or.inr (List.mem_cons.mpr (Or.inr h))
    · rcases List.mem_cons.mp h with h | h
      · exact Or.inr (List.mem_cons.mpr (Or.inl h))
      · rcases ih h with h | h
        · exact Or.inl h
        · exact Or.inr (List.mem_cons.mpr (Or.inr h))

theorem mem_replaceFirst_of_neg {p : Todo → Bool} {t' x : Todo} {l : List Todo}
    (hx : x ∈ l) (hp : p x = false) : x ∈ replaceFirst p t' l := by
  induction l with
  | nil => cases hx
  | cons y ys ih =>
    simp only [replaceFirst]
    split
    case isTrue hpy =>
      rcases List.mem_cons.mp hx with rfl | h
      · rw [hp] at hpy; cases hpy
      · exact List.mem_cons.mpr (Or.inr h)
    case isFalse hpy =>
      rcases List.mem_cons.mp hx with rfl | h
      · exact List.mem_cons.mpr (Or.inl rfl)
      · exact List.mem_cons.mpr (Or.inr (ih h))

theorem mem_removeFirst {p : Todo → Bool} {x : Todo} {l : List Todo}
    (h : x ∈ removeFirst p l) : x ∈ l := by
  induction l with
  | nil => simpa [removeFirst] using h
  | cons y ys ih =>
    simp only [removeFirst] at h
    split at h
    · exact List.mem_cons.mpr (Or.inr h)
    · rcases List.mem_cons.mp h with h | h
      · exact List.mem_cons.mpr (Or.inl h)
      · exact List.mem_cons.mpr (Or.inr (ih h))

theorem mem_removeFirst_of_neg {p : Todo → Bool} {x : Todo} {l : List Todo}
    (hx : x ∈ l) (hp : p x = false) : x ∈ removeFirst p l := by
  induction l with
  | nil => cases hx
  | cons y ys ih =>
    simp only [removeFirst]
    split
    case isTrue hpy =>
      rcases List.mem_cons.mp hx with rfl | h
      · rw [hp] at hpy; cases hpy
      · exact h
    case isFalse hpy =>
      rcases List.mem_cons.mp hx with rfl | h
      · exact List.mem_cons.mpr (Or.inl rfl)
      · exact List.mem_cons.mpr (Or.inr (ih h))

theorem find?_eq_none_of_all_neg {p : Todo → Bool} {l : List Todo}
    (h : ∀ t ∈ l, p t = false) : l.find? p = none :=
  List.find?_eq_none.mpr (fun x hx => by simp [h x hx])

theorem exists_not_of_dropWhile_ne_nil {α : Type} {p : α → Bool} {l : List α}
    (h : l.dropWhile p ≠ []) : ∃ c ∈ l.dropWhile p, p c = false := by
  induction l with
  | nil => simp [List.dropWhile] at h
  | cons x xs ih =>
    rw [List.dropWhile_cons] at h ⊢
    by_cases hx : p x = true
    · rw [if_pos hx] at h ⊢
      exact ih h
    · rw [if_neg hx] at h ⊢
      exact ⟨x, List.mem_cons_self x xs, by simpa using hx⟩

theorem all_whitespace_of_stripChars_eq_nil {l : List Char}
    (h : stripChars l = []) : ∀ c ∈ l, c.isWhitespace = true := by
  unfold stripChars at h
  rw [List.reverse_eq_nil_iff, List.dropWhile_eq_nil_iff] at h
  intro c hc
  have hsplit := List.takeWhile_append_dropWhile (p := Char.isWhitespace) (l := l)
  rw [← hsplit] at hc
  rcases List.mem_append.mp hc with h1 | h1
  · exact List.mem_takeWhile_imp h1
  · exact h c (List.mem_reverse.mpr h1)

theorem stripChars_stripChars_ne_nil {l : List Char}
    (h : stripChars l ≠ []) : stripChars (stripChars l) ≠ [] := by
  intro hcon
  have hall := all_whitespace_of_stripChars_eq_nil hcon
  have hne : (l.dropWhile Char.isWhitespace).reverse.dropWhile Char.isWhitespace ≠ [] := by
    intro h2
    exact h (by simp [stripChars, h2])
  obtain ⟨c, hc, hcp⟩ := exists_not_of_dropWhile_ne_nil hne
  have hmem : c ∈ stripChars l := by
    rw [stripChars]
    exact List.mem_reverse.mpr hc
  rw [hall c hmem] at hcp
  cases hcp

theorem validate_title_ok {v t : String} (h : validate_title v = .ok t) :
    t = strip v ∧ strip v ≠ "" := by
  simp only [validate_title] at h
  split at h
  · cases h
  case isFalse hne =>
    cases h
    exact ⟨rfl, hne⟩

theorem strip_ne_empty_iff {s : String} : strip s ≠ "" ↔ stripChars s.data ≠ [] := by
  constructor
  · intro h hcon
    exact h (congrArg String.mk hcon)
  · intro h hcon
    simp only [strip] at hcon
    exact h (by
      have := congrArg String.data hcon
      simpa using this)

theorem goodTitle_of_stripped {t : Todo} (ht : t.title = strip s)
    (hne : strip s ≠ "") : goodTitleB t = true := by
  simp only [goodTitleB, decide_eq_true_eq, ht, strip]
  exact stripChars_stripChars_ne_nil (strip_ne_empty_iff.mp hne)

theorem parseCreateDescr_ok {raw : RawTodoCreate} {title : String} {d : TodoCreate}
    (h : parseCreateDescr raw title = .ok d) : d.title = title := by
  simp only [parseCreateDescr] at h
  split at h
  · cases h; rfl
  · split at h
    · cases h
    · cases h; rfl

theorem parseTodoCreate_ok_title {raw : RawTodoCreate} {d : TodoCreate}
    (h : parseTodoCreate raw = .ok d) :
    d.title = strip raw.title ∧ strip raw.title ≠ "" := by
  simp only [parseTodoCreate] at h
  split at h
  · cases h
  · split at h
    · cases h
    · split at h
      · cases h
      case h_2 t heq =>
        obtain ⟨rfl, hne⟩ := validate_title_ok heq
        exact ⟨parseCreateDescr_ok h, hne⟩

theorem parseUpdateDescr_ok {raw : RawTodoUpdate} {title : Option String} {u : TodoUpdate}
    (h : parseUpdateDescr raw title = .ok u) : u.title = title := by
  simp only [parseUpdateDescr] at h
  split at h
  · cases h; rfl
  · cases h; rfl
  · split at h
    · cases h
    · cases h; rfl

theorem parseTodoUpdate_ok_title {raw : RawTodoUpdate} {u : TodoUpdate}
    (h : parseTodoUpdate raw = .ok u) :
    (raw.title = none ∧ u.title = none)
      ∨ ∃ s, raw.title = some s ∧ u.title = some (strip s) ∧ strip s ≠ "" := by
  simp only [parseTodoUpdate] at h
  split at h
  case h_1 heq =>
    exact Or.inl ⟨heq, parseUpdateDescr_ok h⟩
  case h_2 s heq =>
    split at h
    · cases h
    · split at h
      · cases h
      · split at h
        · cases h
        case h_2 t heq2 =>
          obtain ⟨rfl, hne⟩ := validate_title_ok heq2
          exact Or.inr ⟨s, heq, parseUpdateDescr_ok h, hne⟩

/-- C9: the due-date classifier is a pure function of (due_date, now)
that compares UTC calendar dates, not instants: no due date gives
`no_due_date`; a due date on a strictly earlier calendar day is
`overdue`; on the same calendar day `due_today` (even when the instant
is already past, e.g. 23:59 today seconds before midnight); on a
strictly later day `upcoming`. -/
theorem C9_classifier_by_calendar_date (d now : Nat) :
    compute_due_date_status none now = .noDueDate
    ∧ (dateOf d < dateOf now → compute_due_date_status (some d) now = .overdue)
    ∧ (dateOf d = dateOf now → compute_due_date_status (some d) now = .dueToday)
    ∧ (dateOf now < dateOf d → compute_due_date_status (some d) now = .upcoming) := by
  refine ⟨rfl, ?_, ?_, ?_⟩
  · intro h
    simp [compute_due_date_status, h]
  · intro h
    simp [compute_due_date_status, h]
  · intro h
    simp [compute_due_date_status, Nat.not_lt.mpr (Nat.le_of_lt h), Nat.ne_of_gt h]

/-- Witness for C9 at concrete instants; the `due_today` case uses a
due date at 23:59 of the current day evaluated at 23:59:58, two
seconds before midnight. -/
theorem C9_witness :
    compute_due_date_status none 0 = .noDueDate
    ∧ compute_due_date_status (some 0) usPerDay = .overdue
    ∧ compute_due_date_status (some (usPerDay - 60000000)) (usPerDay - 2000000) = .dueToday
    ∧ compute_due_date_status (some usPerDay) 0 = .upcoming :=
  ⟨(C9_classifier_by_calendar_date 0 0).1,
   (C9_classifier_by_calendar_date 0 usPerDay).2.1 (by decide),
   (C9_classifier_by_calendar_date (usPerDay - 60000000) (usPerDay - 2000000)).2.2.1 (by decide),
   (C9_classifier_by_calendar_date usPerDay 0).2.2.2 (by decide)⟩

/-- C4 counterexample: creation stamps `created_at` and `updated_at`
with two separate `datetime.utcnow()` reads (route lines 103-104);
when the clock advances between the reads (0 then 1) the returned
todo has `updated_at = 1 ≠ 0 = created_at`, refuting
`updated_at == created_at`. -/
theorem C4_counterexample :
    ¬ (∀ r, (create_todo 1 sampleCreate 1 [] 0 1 2).1 = .ok r →
        r.updated_at = r.created_at) := by
  intro h
  have hc := h sampleCreatedResp rfl
  simp [sampleCreatedResp] at hc

/-- C4 (amended): the returned created todo's `created_at` is the first
clock read and `updated_at` the second; under a monotone clock
`created_at ≤ updated_at`, with equality exactly when the two reads
coincide (equality is not guaranteed for every creation). -/
theorem C4_create_timestamps (uid : Nat) (data : TodoCreate) (db : List Todo)
    (t1 t2 t3 : Nat) (hclock : t1 ≤ t2) :
    ∀ r, (create_todo uid data uid db t1 t2 t3).1 = .ok r →
      r.created_at = t1 ∧ r.updated_at = t2 ∧ r.created_at ≤ r.updated_at := by
  intro r hr
  simp only [create_todo, validate_user_access, ne_eq, not_true_eq_false,
    if_false, Except.ok.injEq] at hr
  subst hr
  exact ⟨rfl, rfl, hclock⟩

/-- Witness for C4 (amended) at clock reads 0 and 1 in an empty store. -/
theorem C4_witness :
    sampleCreatedResp.created_at = 0 ∧ sampleCreatedResp.updated_at = 1
      ∧ sampleCreatedResp.created_at ≤ sampleCreatedResp.updated_at :=
  C4_create_timestamps 1 sampleCreate [] 0 1 2 (by decide) sampleCreatedResp rfl

/-- C7: an update whose body carries zero fields fails with the 422
validation error before any store read or write: for every store
content the outcome is the same constant error and the store is
returned unchanged. -/
theorem C7_empty_update_rejected (db : List Todo) (uid tid : Nat)
    (upd : TodoUpdate) (nowU nowR : Nat) (h : upd.isEmpty = true) :
    update_todo uid tid upd uid db nowU nowR =
      (.error (.validationError "At least one field must be provided for update"), db)
    ∧ (renderError
        (.validationError "At least one field must be provided for update")).status = 422 := by
  refine ⟨?_, rfl⟩
  simp [update_todo, validate_user_access, h]

/-- Witness for C7: the empty update against a one-row store. -/
theorem C7_witness :
    update_todo 1 1 emptyUpdate 1 [sampleTodo] 5 5 =
      (.error (.validationError "At least one field must be provided for update"), [sampleTodo])
    ∧ (renderError
        (.validationError "At least one field must be provided for update")).status = 422 :=
  C7_empty_update_rejected [sampleTodo] 1 1 emptyUpdate 5 5 rfl

/-- C6 counterexample: updating `sampleTodo` (stored `updated_at = 1`)
with the query-time clock read also at 1 leaves `updated_at` at 1:
`todo.updated_at = datetime.utcnow()` is executed unconditionally, but
nothing guarantees the new read strictly exceeds the prior stamp, so
the strict increase claimed for every update fails. -/
theorem C6_counterexample :
    ¬ (∀ r, (update_todo 1 1 setCompleted 1 [sampleTodo] 1 1).1 = .ok r →
        sampleTodo.updated_at < r.updated_at) := by
  intro h
  have hc := h (toResponse (applyUpdate sampleTodo setCompleted 1) 1) rfl
  simp [sampleTodo, applyUpdate, toResponse, setCompleted] at hc

/-- C6 (amended): for every update of an existing owned todo with at
least one supplied field the operation succeeds; each supplied field
takes the supplied value, each absent field keeps its prior value,
identity fields are untouched, and `updated_at` is always refreshed to
the query-time clock read — hence it strictly increases whenever that
read is strictly later than the prior stamp, and it never decreases
under a monotone clock, but strict increase is not forced when the
clock has not advanced. -/
theorem C6_update_frame (db : List Todo) (uid tid : Nat) (upd : TodoUpdate)
    (nowU nowR : Nat) (t0 : Todo) (hne : upd.isEmpty = false)
    (hfind : db.find? (todoKey tid uid) = some t0) :
    update_todo uid tid upd uid db nowU nowR =
      (.ok (toResponse (applyUpdate t0 upd nowU) nowR),
        replaceFirst (todoKey tid uid) (applyUpdate t0 upd nowU) db)
    ∧ (applyUpdate t0 upd nowU).updated_at = nowU
    ∧ (t0.updated_at < nowU → t0.updated_at < (applyUpdate t0 upd nowU).updated_at)
    ∧ (t0.updated_at ≤ nowU → t0.updated_at ≤ (applyUpdate t0 upd nowU).updated_at)
    ∧ (applyUpdate t0 upd nowU).title = upd.title.getD t0.title
    ∧ (applyUpdate t0 upd nowU).description = upd.description.getD t0.description
    ∧ (applyUpdate t0 upd nowU).completed = upd.completed.getD t0.completed
    ∧ (applyUpdate t0 upd nowU).due_date = upd.due_date.getD t0.due_date
    ∧ (applyUpdate t0 upd nowU).priority = upd.priority.getD t0.priority
    ∧ (upd.title = none → (applyUpdate t0 upd nowU).title = t0.title)
    ∧ (upd.completed = none → (applyUpdate t0 upd nowU).completed = t0.completed)
    ∧ (applyUpdate t0 upd nowU).id = t0.id
    ∧ (applyUpdate t0 upd nowU).user_id = t0.user_id
    ∧ (applyUpdate t0 upd nowU).created_at = t0.created_at := by
  refine ⟨?_, rfl, ?_, ?_, rfl, rfl, rfl, rfl, rfl, ?_, ?_, rfl, rfl, rfl⟩
  · simp [update_todo, validate_user_access, hne, hfind]
  · intro h
    exact h
  · intro h
    exact h
  · intro h
    simp [applyUpdate, h]
  · intro h
    simp [applyUpdate, h]

/-- Witness for C6 (amended): setting `completed` on `sampleTodo`
(prior `updated_at = 1`) at clock read 5. -/
theorem C6_witness :
    update_todo 1 1 setCompleted 1 [sampleTodo] 5 5 =
      (.ok (toResponse (applyUpdate sampleTodo setCompleted 5) 5),
        replaceFirst (todoKey 1 1) (applyUpdate sampleTodo setCompleted 5) [sampleTodo])
    ∧ (applyUpdate sampleTodo setCompleted 5).updated_at = 5
    ∧ (sampleTodo.updated_at < 5 →
        sampleTodo.updated_at < (applyUpdate sampleTodo setCompleted 5).updated_at)
    ∧ (sampleTodo.updated_at ≤ 5 →
        sampleTodo.updated_at ≤ (applyUpdate sampleTodo setCompleted 5).updated_at)
    ∧ (applyUpdate sampleTodo setCompleted 5).title = setCompleted.title.getD sampleTodo.title
    ∧ (applyUpdate sampleTodo setCompleted 5).description
        = setCompleted.description.getD sampleTodo.description
    ∧ (applyUpdate sampleTodo setCompleted 5).completed
        = setCompleted.completed.getD sampleTodo.completed
    ∧ (applyUpdate sampleTodo setCompleted 5).due_date
        = setCompleted.due_date.getD sampleTodo.due_date
    ∧ (applyUpdate sampleTodo setCompleted 5).priority
        = setCompleted.priority.getD sampleTodo.priority
    ∧ (setCompleted.title = none →
        (applyUpdate sampleTodo setCompleted 5).title = sampleTodo.title)
    ∧ (setCompleted.completed = none →
        (applyUpdate sampleTodo setCompleted 5).completed = sampleTodo.completed)
    ∧ (applyUpdate sampleTodo setCompleted 5).id = sampleTodo.id
    ∧ (applyUpdate sampleTodo setCompleted 5).user_id = sampleTodo.user_id
    ∧ (applyUpdate sampleTodo setCompleted 5).created_at = sampleTodo.created_at :=
  C6_update_frame [sampleTodo] 1 1 setCompleted 5 5 sampleTodo rfl rfl

/-- C3: for get, update (with a non-empty body) and delete, a todo id
absent from the store and a todo id owned by a different user are the
same event — the scoped lookup (`Todo.id == todo_id AND Todo.user_id ==
user_id`) misses in both cases, the operation returns the same
`NotFound` outcome depending only on the requested id, the store is
unchanged, and the rendered response is the identical 404 body, so a
caller cannot distinguish absent from owned-by-someone-else. -/
theorem C3_notfound_indistinguishable (db : List Todo) (uid tid : Nat)
    (upd : TodoUpdate) (nowG nowU nowR : Nat) (hne : upd.isEmpty = false)
    (habsent : ∀ t ∈ db, todoKey tid uid t = false) :
    get_todo uid tid uid db nowG = .error (.notFound tid)
    ∧ update_todo uid tid upd uid db nowU nowR = (.error (.notFound tid), db)
    ∧ delete_todo uid tid uid db = (.error (.notFound tid), db)
    ∧ renderError (.notFound tid) =
        { status := 404, code := "NOT_FOUND"
          message := s!"Todo with ID {tid} not found", details := [] } := by
  have hfind := find?_eq_none_of_all_neg habsent
  refine ⟨?_, ?_, ?_, rfl⟩
  · simp [get_todo, validate_user_access, hfind]
  · simp [update_todo, validate_user_access, hne, hfind]
  · simp [delete_todo, validate_user_access, hfind]

/-- Witness for C3: requesting id 5 as user 1 against an empty store
and against a store holding id 5 owned by user 99 produces the
identical 404 outcome. -/
theorem C3_witness :
    (get_todo 1 5 1 [] 0 = .error (.notFound 5)
      ∧ update_todo 1 5 setCompleted 1 [] 0 0 = (.error (.notFound 5), [])
      ∧ delete_todo 1 5 1 [] = (.error (.notFound 5), [])
      ∧ renderError (.notFound 5) =
          { status := 404, code := "NOT_FOUND"
            message := "Todo with ID 5 not found", details := [] })
    ∧ (get_todo 1 5 1 [otherTodo] 0 = .error (.notFound 5)
      ∧ update_todo 1 5 setCompleted 1 [otherTodo] 0 0 = (.error (.notFound 5), [otherTodo])
      ∧ delete_todo 1 5 1 [otherTodo] = (.error (.notFound 5), [otherTodo])
      ∧ renderError (.notFound 5) =
          { status := 404, code := "NOT_FOUND"
            message := "Todo with ID 5 not found", details := [] }) :=
  ⟨C3_notfound_indistinguishable [] 1 5 setCompleted 0 0 0 rfl (by decide),
   C3_notfound_indistinguishable [otherTodo] 1 5 setCompleted 0 0 0 rfl (by decide)⟩

/-- C5 counterexample: `getattr(Todo, "title", Todo.created_at)` finds
the `title` column, so `sort=title` sorts by title instead of falling
back to `created_at`: with two rows whose title order and creation
order disagree, the two listings return different sequences. -/
theorem C5_counterexample :
    list_todos 1 1 [sampleTodo, sampleTodo2] none none none "title" "asc" 0 0
      ≠ list_todos 1 1 [sampleTodo, sampleTodo2] none none none "created_at" "asc" 0 0 := by
  decide

/-- C5 (amended): the claim's cited examples are wrong — `title`, `id`
and `user_id` name `Todo` columns, so `getattr` finds them and the
listing sorts by that column instead of falling back.  The silent
fallback to `created_at` happens only when the sort string names no
attribute of the `Todo` class at all, as with `no_such_column` here
(a string naming a non-column class attribute such as `__tablename__`
is found by `getattr` and then fails `.asc()`/`.desc()` with an
`AttributeError`, a 500 — not the fallback ordering).  The four
documented sort fields resolve to their columns, and the declared
request defaults are `sort=created_at`, `order=desc`. -/
theorem C5_sort_fallback (db : List Todo) (uid : Nat) (c : Option Bool)
    (p dds : Option String) (ord : String) (nowQ nowR : Nat) :
    sortKeyField "no_such_column" = .createdAt
    ∧ list_todos uid uid db c p dds "no_such_column" ord nowQ nowR
        = list_todos uid uid db c p dds "created_at" ord nowQ nowR
    ∧ sortKeyField "title" = .title
    ∧ sortKeyField "id" = .id
    ∧ sortKeyField "user_id" = .userId
    ∧ sortKeyField "due_date" = .dueDate
    ∧ sortKeyField "priority" = .priority
    ∧ sortKeyField "created_at" = .createdAt
    ∧ sortKeyField "updated_at" = .updatedAt
    ∧ defaultSort = "created_at"
    ∧ defaultOrder = "desc" := by
  refine ⟨rfl, ?_, rfl, rfl, rfl, rfl, rfl, rfl, rfl, rfl, rfl⟩
  simp only [list_todos, applySort]
  rfl

/-- C2: evaluated at the failing inputs, the list filter diverges from
the claim: for a todo due earlier today (due `usPerDay + 500`, clock
`usPerDay + 1000`) the `due_date_status=overdue` filter compares
instants (`Todo.due_date < now`) and returns the todo even though the
calendar-date classifier — and the `due_date_status` annotation on the
very response it returns — says `due_today`; and
`due_date_status=upcoming` evaluates `datetime.timedelta(days=1)` on
the `datetime` class, which has no such attribute, so the call raises
`AttributeError` and surfaces as an internal error instead of
succeeding. -/
theorem C2_filter_diverges_from_classifier :
    list_todos 1 1 [dueEarlierToday] none none (some "upcoming") "created_at" "desc"
        (usPerDay + 1000) (usPerDay + 1000)
      = .error (.internalError
          "AttributeError: type object datetime has no attribute timedelta")
    ∧ list_todos 1 1 [dueEarlierToday] none none (some "overdue") "created_at" "desc"
        (usPerDay + 1000) (usPerDay + 1000)
      = .ok [toResponse dueEarlierToday (usPerDay + 1000)]
    ∧ (toResponse dueEarlierToday (usPerDay + 1000)).due_date_status = .dueToday
    ∧ compute_due_date_status dueEarlierToday.due_date (usPerDay + 1000) = .dueToday :=
  ⟨by decide, by decide, by decide, by decide⟩

/-- C8: a create or update whose title strips to the empty string is
rejected with a 422 validation failure before anything is persisted —
the store comes back unchanged; an accepted create carries the title
stripped of surrounding whitespace and non-empty; and both endpoints
preserve the store invariant that no persisted todo has an empty or
whitespace-only title. -/
theorem C8_title_validation (rawC : RawTodoCreate) (rawU : RawTodoUpdate)
    (sU : String) (db : List Todo) (uid tid : Nat) (dataC : TodoCreate)
    (t1 t2 t3 nowU nowR : Nat) :
    (strip rawC.title = "" →
      errStatus (create_todo_route uid rawC uid db t1 t2 t3).1 = some 422
      ∧ (create_todo_route uid rawC uid db t1 t2 t3).2 = db)
    ∧ (rawU.title = some sU → strip sU = "" →
      errStatus (update_todo_route uid tid rawU uid db nowU nowR).1 = some 422
      ∧ (update_todo_route uid tid rawU uid db nowU nowR).2 = db)
    ∧ (parseTodoCreate rawC = .ok dataC →
      dataC.title = strip rawC.title ∧ dataC.title ≠ "")
    ∧ (db.all goodTitleB = true →
      ((create_todo_route uid rawC uid db t1 t2 t3).2).all goodTitleB = true)
    ∧ (db.all goodTitleB = true →
      ((update_todo_route uid tid rawU uid db nowU nowR).2).all goodTitleB = true) := by
  refine ⟨?_, ?_, ?_, ?_, ?_⟩
  · intro hblank
    cases hp : parseTodoCreate rawC with
    | error e => simp [create_todo_route, hp, errStatus, renderError]
    | ok d =>
      obtain ⟨_, hne⟩ := parseTodoCreate_ok_title hp
      exact absurd hblank hne
  · intro hU hblank
    cases hp : parseTodoUpdate rawU with
    | error e => simp [update_todo_route, hp, errStatus, renderError]
    | ok u =>
      rcases parseTodoUpdate_ok_title hp with ⟨hnone, _⟩ | ⟨s, hs, _, hne⟩
      · rw [hU] at hnone
        cases hnone
      · rw [hU] at hs
        injection hs with hs
        subst hs
        exact absurd hblank hne
  · intro hp
    obtain ⟨hdt, hne⟩ := parseTodoCreate_ok_title hp
    exact ⟨hdt, hdt ▸ hne⟩
  · intro hall
    cases hp : parseTodoCreate rawC with
    | error e => simpa [create_todo_route, hp] using hall
    | ok d =>
      obtain ⟨hdt, hne⟩ := parseTodoCreate_ok_title hp
      have hgood : goodTitleB
          { id := nextId db, title := d.title, description := d.description
            completed := d.completed, due_date := d.due_date
            priority := d.priority, category_id := none, user_id := uid
            created_at := t1, updated_at := t2 } = true :=
        goodTitle_of_stripped hdt hne
      simp [create_todo_route, hp, create_todo, validate_user_access,
        List.all_append, hall, hgood]
  · intro hall
    cases hp : parseTodoUpdate rawU with
    | error e => simpa [update_todo_route, hp] using hall
    | ok u =>
      simp only [update_todo_route, hp]
      cases hemp : u.isEmpty with
      | true => simpa [update_todo, validate_user_access, hemp] using hall
      | false =>
        cases hfind : db.find? (todoKey tid uid) with
        | none => simpa [update_todo, validate_user_access, hemp, hfind] using hall
        | some t0 =>
          simp [update_todo, validate_user_access, hemp, hfind]
          intro x hx
          rcases mem_replaceFirst hx with rfl | hxdb
          · rcases parseTodoUpdate_ok_title hp with ⟨_, hunone⟩ | ⟨s, _, hut, hne⟩
            · have ht0 : goodTitleB t0 = true :=
                List.all_eq_true.mp hall t0 (List.mem_of_find?_eq_some hfind)
              have htt : (applyUpdate t0 u nowU).title = t0.title := by
                simp [applyUpdate, hunone]
              simpa [goodTitleB, htt] using ht0
            · exact goodTitle_of_stripped (by simp [applyUpdate, hut]) hne
          · exact List.all_eq_true.mp hall x hxdb

/-- Witness for C8: a whitespace-only title is rejected on create and
on update leaving the store untouched; `"  Buy milk  "` parses to the
trimmed `"Buy milk"`; and both endpoints preserve the good-title
invariant on a concrete store. -/
theorem C8_witness :
    (errStatus (create_todo_route 1 rawBlankCreate 1 [sampleTodo] 0 1 2).1 = some 422
      ∧ (create_todo_route 1 rawBlankCreate 1 [sampleTodo] 0 1 2).2 = [sampleTodo])
    ∧ (errStatus (update_todo_route 1 1 rawBlankUpdate 1 [sampleTodo] 5 5).1 = some 422
      ∧ (update_todo_route 1 1 rawBlankUpdate 1 [sampleTodo] 5 5).2 = [sampleTodo])
    ∧ (sampleCreate.title = strip rawBuyMilk.title ∧ sampleCreate.title ≠ "")
    ∧ ((create_todo_route 1 rawBuyMilk 1 [sampleTodo] 0 1 2).2).all goodTitleB = true
    ∧ ((update_todo_route 1 1 rawBlankUpdate 1 [sampleTodo] 5 5).2).all goodTitleB = true :=
  ⟨(C8_title_validation rawBlankCreate rawBlankUpdate "  " [sampleTodo] 1 1
      sampleCreate 0 1 2 5 5).1 (by decide),
   (C8_title_validation rawBlankCreate rawBlankUpdate "  " [sampleTodo] 1 1
      sampleCreate 0 1 2 5 5).2.1 rfl (by decide),
   (C8_title_validation rawBuyMilk rawBlankUpdate "  " [sampleTodo] 1 1
      sampleCreate 0 1 2 5 5).2.2.1 (by decide),
   (C8_title_validation rawBuyMilk rawBlankUpdate "  " [sampleTodo] 1 1
      sampleCreate 0 1 2 5 5).2.2.2.1 (by decide),
   (C8_title_validation rawBuyMilk rawBlankUpdate "  " [sampleTodo] 1 1
      sampleCreate 0 1 2 5 5).2.2.2.2 (by decide)⟩

/-- C1: user isolation.  When the path owner differs from the
authenticated principal every operation fails closed with Forbidden
and leaves the store unchanged; when an operation succeeds, every todo
it returns carries the principal's user id (list results are
owner-filtered, the scoped get is keyed on the owner), every todo of a
different user survives create, update and delete untouched, and
create only ever appends a todo owned by the principal — so a todo of
user A is never returned, mutated, or deleted through user B's
principal. -/
theorem C1_user_isolation (db : List Todo) (uid cuid tid : Nat)
    (data : TodoCreate) (upd : TodoUpdate) (c : Option Bool) (p dds : Option String)
    (sort ord : String) (t1 t2 t3 nowQ nowR nowG nowU nowR2 : Nat) :
    (uid ≠ cuid →
      create_todo uid data cuid db t1 t2 t3 = (.error .forbidden, db)
      ∧ list_todos uid cuid db c p dds sort ord nowQ nowR = .error .forbidden
      ∧ get_todo uid tid cuid db nowG = .error .forbidden
      ∧ update_todo uid tid upd cuid db nowU nowR2 = (.error .forbidden, db)
      ∧ delete_todo uid tid cuid db = (.error .forbidden, db))
    ∧ (∀ rs, list_todos uid cuid db c p dds sort ord nowQ nowR = .ok rs →
        ∀ r ∈ rs, r.user_id = cuid)
    ∧ (∀ r, get_todo uid tid cuid db nowG = .ok r → r.user_id = cuid)
    ∧ (∀ t ∈ db, t.user_id ≠ cuid →
        t ∈ (create_todo uid data cuid db t1 t2 t3).2
        ∧ t ∈ (update_todo uid tid upd cuid db nowU nowR2).2
        ∧ t ∈ (delete_todo uid tid cuid db).2)
    ∧ (∀ t ∈ (create_todo uid data cuid db t1 t2 t3).2, t ∈ db ∨ t.user_id = cuid) := by
  rcases eq_or_ne cuid uid with heq | hneq
  · subst heq
    have hgg : validate_user_access cuid cuid = .ok () := by
      simp [validate_user_access]
    refine ⟨fun hcontra => absurd rfl hcontra, ?_, ?_, ?_, ?_⟩
    · intro rs hrs r hr
      simp only [list_todos, hgg] at hrs
      cases hdds : applyDueDateStatus dds nowQ
          (applyPriority p (applyCompleted c (ownerScoped cuid db))) with
      | error e => rw [hdds] at hrs; cases hrs
      | ok l =>
        rw [hdds] at hrs
        injection hrs with hrs
        subst hrs
        obtain ⟨t, htmem, rfl⟩ := List.mem_map.mp hr
        exact (mem_ownerScoped (mem_applyCompleted (mem_applyPriority
          (mem_applyDueDateStatus hdds (mem_applySort htmem))))).2
    · intro r hr
      simp only [get_todo, hgg] at hr
      cases hfind : db.find? (todoKey tid cuid) with
      | none => rw [hfind] at hr; cases hr
      | some t0 =>
        rw [hfind] at hr
        injection hr with hr
        subst hr
        have hp2 : todoKey tid cuid t0 = true := List.find?_some hfind
        simp only [todoKey, Bool.and_eq_true, beq_iff_eq] at hp2
        exact hp2.2
    · intro t ht hresid
      have h2 : (t.user_id == cuid) = false := beq_eq_false_iff_ne.mpr hresid
      have hkey : todoKey tid cuid t = false := by
        simp [todoKey, h2]
      refine ⟨?_, ?_, ?_⟩
      · simp [create_todo, hgg, List.mem_append]
        exact Or.inl ht
      · cases hemp : upd.isEmpty with
        | true => simpa [update_todo, hgg, hemp] using ht
        | false =>
          cases hfind : db.find? (todoKey tid cuid) with
          | none => simpa [update_todo, hgg, hemp, hfind] using ht
          | some t0 =>
            simp [update_todo, hgg, hemp, hfind]
            exact mem_replaceFirst_of_neg ht hkey
      · cases hfind : db.find? (todoKey tid cuid) with
        | none => simpa [delete_todo, hgg, hfind] using ht
        | some t0 =>
          simp [delete_todo, hgg, hfind]
          exact mem_removeFirst_of_neg ht hkey
    · intro t ht
      simp [create_todo, hgg, List.mem_append] at ht
      rcases ht with ht | rfl
      · exact Or.inl ht
      · exact Or.inr rfl
  · have hgg : validate_user_access cuid uid = .error .forbidden := by
      simp [validate_user_access, hneq]
    refine ⟨fun _ => ⟨?_, ?_, ?_, ?_, ?_⟩, ?_, ?_, ?_, ?_⟩
    · simp [create_todo, hgg]
    · simp [list_todos, hgg]
    · simp [get_todo, hgg]
    · simp [update_todo, hgg]
    · simp [delete_todo, hgg]
    · intro rs hrs
      simp [list_todos, hgg] at hrs
    · intro r hr
      simp [get_todo, hgg] at hr
    · intro t ht _
      refine ⟨?_, ?_, ?_⟩
      · simpa [create_todo, hgg] using ht
      · simpa [update_todo, hgg] using ht
      · simpa [delete_todo, hgg] using ht
    · intro t ht
      simp [create_todo, hgg] at ht
      exact Or.inl ht

/-- Witness for C1: as principal 2, every operation against user 1's
resources is Forbidden and the store is untouched; as principal 1, the
listing returns user 1's row, whose `user_id` is 1. -/
theorem C1_witness :
    (create_todo 1 sampleCreate 2 [sampleTodo] 0 1 2 = (.error .forbidden, [sampleTodo])
      ∧ list_todos 1 2 [sampleTodo] none none none "created_at" "desc" 0 0 = .error .forbidden
      ∧ get_todo 1 1 2 [sampleTodo] 0 = .error .forbidden
      ∧ update_todo 1 1 setCompleted 2 [sampleTodo] 0 0 = (.error .forbidden, [sampleTodo])
      ∧ delete_todo 1 1 2 [sampleTodo] = (.error .forbidden, [sampleTodo]))
    ∧ (toResponse sampleTodo 0).user_id = 1 :=
  ⟨(C1_user_isolation [sampleTodo] 1 2 1 sampleCreate setCompleted none none none
      "created_at" "desc" 0 1 2 0 0 0 0 0).1 (by decide),
   (C1_user_isolation [sampleTodo] 1 1 1 sampleCreate setCompleted none none none
      "created_at" "desc" 0 1 2 0 0 0 0 0).2.1 [toResponse sampleTodo 0] rfl
      (toResponse sampleTodo 0) (List.mem_cons_self _ _)⟩

end TodoApp
